import Mathlib

/-
Verification of IBKR_stream_save.py (IB_stream repository).

The program connects to an Interactive Brokers gateway, subscribes to
real-time 5-second bars for a fixed ticker list, and appends each bar to a
per-symbol CSV file.  Below is a shallow embedding of its state and of the
four operations the claims are about: setup_streaming, on_bar, shutdown and
main.  External effects (contract construction, file open, subscription
request, write, close, disconnect) can fail in the real world; each failure
point is modelled by a Boolean oracle, and Python exceptions are modelled by
Except values that the embedded handlers catch exactly where the source has
try/except blocks.
-/

set_option linter.unusedVariables false

namespace IBStream

/-- Association-list lookup, modelling Python dict indexing (bars_map[bars])
keyed on an arbitrary key type. -/
def alookup {α : Type} [DecidableEq α] {β : Type} : List (α × β) → α → Option β
  | [], _ => none
  | (k, v) :: rest, k0 => if k0 = k then some v else alookup rest k0

/-- Association-list insert-or-replace, modelling Python dict assignment.
A missing key is appended at the end, matching dict insertion order. -/
def aupdate {α : Type} [DecidableEq α] {β : Type} : List (α × β) → α → β → List (α × β)
  | [], k, v => [(k, v)]
  | (k1, v1) :: rest, k, v => if k1 = k then (k, v) :: rest else (k1, v1) :: aupdate rest k v

/-- One real-time bar, with the six fields the program writes
(bar.time, bar.open_, bar.high, bar.low, bar.close, bar.volume).
Numeric values are modelled as integers. -/
structure Bar where
  time : Int
  open_ : Int
  high : Int
  low : Int
  close : Int
  volume : Int
deriving DecidableEq

/-- One CSV row: either the fixed header row
timestamp,open,high,low,close,volume written at src line 104, or a data row
holding the six fields of one bar. -/
inductive Row where
  | header : Row
  | data (time o h l c v : Int) : Row
deriving DecidableEq

/-- The data row written for a bar at src lines 133-135. -/
def rowOfBar (b : Bar) : Row :=
  Row.data b.time b.open_ b.high b.low b.close b.volume

/-- Whether a row is the header row. -/
def isHeader : Row → Bool
  | Row.header => true
  | Row.data _ _ _ _ _ _ => false

/-- Number of header rows in a file content. -/
def headerCount (l : List Row) : Nat :=
  (l.filter isHeader).length

/-- The per-symbol output file, together with the open-file object state.
rows is everything written (buffered included); flushedCount is the length
of the durable prefix.  writeFails and closeFails are environment oracles:
whether a write/flush or a close on this file raises. -/
structure FileRes where
  rows : List Row
  flushedCount : Nat
  isOpen : Bool
  closeAttempted : Bool
  writeFails : Bool
  closeFails : Bool
deriving DecidableEq

/-- A file after writerow of the data row of a bar followed by flush
(src lines 133-136): the row is appended and the whole content is durable. -/
def writtenFile (fr : FileRes) (b : Bar) : FileRes :=
  { fr with rows := fr.rows ++ [rowOfBar b], flushedCount := fr.rows.length + 1 }

/-- Python exceptions that the embedded code can raise and catch. -/
inductive PyErr where
  | keyError : PyErr
  | indexError : PyErr
  | ioError : PyErr
  | contractError : PyErr
  | openError : PyErr
  | subscribeError : PyErr
deriving DecidableEq

/-- Whole-program state: files is the per-symbol output resource heap keyed
by symbol (one file path per symbol); barsMap models bars_map, mapping the
subscription handle (a fresh Nat for each successful reqRealTimeBars call)
to the symbol whose ctx it holds - the writer/file members of the Python ctx
dict are recovered by looking the symbol up in files.  ibSome says whether
the global ib is not None; nextHandle is the next fresh subscription handle. -/
structure AppState where
  files : List (String × FileRes)
  barsMap : List (Nat × String)
  nextHandle : Nat
  ibSome : Bool
  connected : Bool
  disconnectAttempted : Bool
  dirCreated : Bool
deriving DecidableEq

/-- The state before main starts. -/
def initialState : AppState :=
  { files := [], barsMap := [], nextHandle := 0, ibSome := false,
    connected := false, disconnectAttempted := false, dirCreated := false }

/-- Opening a CSV file in append mode at src lines 99-104: position is at
end of file, so f.tell() = 0 exactly when the existing content is empty, and
only then the header row is written.  Existing content is never truncated. -/
def openCsvFile (existing : List Row) (wf cf : Bool) : FileRes :=
  { rows := if existing.isEmpty then [Row.header] else existing
    flushedCount := existing.length
    isOpen := true
    closeAttempted := false
    writeFails := wf
    closeFails := cf }

/-- Failure oracles for one setup_streaming run: whether, for a given
symbol, the Stock constructor, the file open, or the reqRealTimeBars call
raises, and how the resulting file behaves on later writes and close. -/
structure SetupOracle where
  contractFails : String → Bool
  openFails : String → Bool
  subscribeFails : String → Bool
  writeFails : String → Bool
  closeFails : String → Bool

/-- The content the file of a symbol already has on disk when setup opens
it in append mode: empty when the file does not exist yet. -/
def existingRows (s : AppState) (symbol : String) : List Row :=
  match alookup s.files symbol with
  | some fr => fr.rows
  | none => []

/-- Body of the per-symbol try block of setup_streaming (src lines 93-116).
On a raise the error carries the state at the raise point: a subscription
failure happens after the file was already opened, so the opened file
survives into the caught state. -/
def setupSymbolBody (o : SetupOracle) (s : AppState) (symbol : String) :
    Except (PyErr × AppState) AppState :=
  if o.contractFails symbol then Except.error (PyErr.contractError, s)
  else if o.openFails symbol then Except.error (PyErr.openError, s)
  else
    let fr := openCsvFile (existingRows s symbol) (o.writeFails symbol) (o.closeFails symbol)
    let s1 : AppState := { s with files := aupdate s.files symbol fr }
    if o.subscribeFails symbol then Except.error (PyErr.subscribeError, s1)
    else Except.ok { s1 with
      barsMap := s1.barsMap ++ [(s1.nextHandle, symbol)],
      nextHandle := s1.nextHandle + 1 }

/-- One iteration of the setup_streaming loop: the except clause at src
lines 118-119 catches any per-symbol error, logs it, and continues with
whatever state the body had reached. -/
def setupSymbol (o : SetupOracle) (s : AppState) (symbol : String) : AppState :=
  match setupSymbolBody o s symbol with
  | Except.ok s1 => s1
  | Except.error (_, s1) => s1

/-- setup_streaming over an arbitrary symbol list (the for loop at src
line 92). -/
def setupList (o : SetupOracle) (s : AppState) (syms : List String) : AppState :=
  syms.foldl (setupSymbol o) s

/-- The TICKERS list of the source (src lines 41-55). -/
def TICKERS : List String := [
  "SPY", "QQQ", "IWM",
  "AEM", "AEP", "AGI", "AMAT", "AMD", "AMT", "AMZN", "ANET",
  "APH", "APP", "ATI", "AVGO", "AXP", "CCJ", "CDNS", "CEG",
  "CELH", "CL", "CLS", "CME", "CNM", "CNP", "COST", "CP",
  "CRBG", "D", "DOCS", "DXCM", "ETN", "EXPE", "FAST", "FLEX",
  "FTNT", "GEN", "HLT", "HON", "HPE", "HWM", "IBKR", "ICE",
  "KDP", "KMI", "KO", "LIN", "LNT", "LRCX", "MA", "MDLZ",
  "MDT", "META", "MNST", "MPC", "MSFT", "NDAQ", "NEE", "NFLX",
  "NI", "NKE", "NTNX", "NUE", "NVDA", "NVT", "NWSA", "NXPI",
  "ORLY", "OTIS", "QSR", "RCL", "ROL", "SCHW", "SFM", "SGI",
  "SMCI", "TJX", "TME", "TPR", "TSCO", "UNP", "USFD", "V",
  "VLO", "VST", "WEC", "WMB", "WPM", "WYNN", "YUM",
  "TSLA", "AAPL"]

/-- setup_streaming of the source: the loop over TICKERS. -/
def setup_streaming (o : SetupOracle) (s : AppState) : AppState :=
  setupList o s TICKERS

/-- A symbol for which all three setup steps succeed (a successfully
subscribed symbol). -/
def subscribeOK (o : SetupOracle) (x : String) : Bool :=
  !o.contractFails x && !o.openFails x && !o.subscribeFails x

/-- A symbol whose contract construction and file open succeed, so that its
output file is created, whatever the subscription request then does. -/
def openOK (o : SetupOracle) (x : String) : Bool :=
  !o.contractFails x && !o.openFails x

/-- Body of the try block of on_bar (src lines 127-136): dict lookup of the
handle, bars[-1] on the bar sequence of the subscription, writerow of the
six fields, flush.  Each failure raises; the write/flush failure point is
the writeFails oracle of the file, and writing to a closed file raises. -/
def on_bar_body (s : AppState) (handle : Nat) (bars : List Bar) :
    Except PyErr AppState :=
  match alookup s.barsMap handle with
  | none => Except.error PyErr.keyError
  | some sym =>
    match bars.getLast? with
    | none => Except.error PyErr.indexError
    | some b =>
      match alookup s.files sym with
      | none => Except.error PyErr.keyError
      | some fr =>
        if fr.isOpen && !fr.writeFails then
          Except.ok { s with files := aupdate s.files sym (writtenFile fr b) }
        else Except.error PyErr.ioError

/-- on_bar (src lines 122-142): returns immediately when hasNewBar is
false; otherwise runs the body, and the except clause at src lines 141-142
catches any error, logs it and leaves the state as it was. -/
def on_bar (s : AppState) (handle : Nat) (bars : List Bar) (hasNewBar : Bool) :
    AppState :=
  if !hasNewBar then s
  else
    match on_bar_body s handle bars with
    | Except.ok s1 => s1
    | Except.error _ => s

/-- A sequence of on_bar invocations for one subscription handle, each with
hasNewBar = true and the bar sequence the library presents at that moment. -/
def runOnBars (s : AppState) (handle : Nat) (invs : List (List Bar)) : AppState :=
  invs.foldl (fun st bs => on_bar st handle bs true) s

/-- One close attempt on a file object (src lines 157-160): try f.close()
except pass.  On success the buffer is flushed and the file is closed; on a
raising close the file state is left as it was; either way the attempt was
made. -/
def closeFile (fr : FileRes) : FileRes :=
  if fr.closeFails then { fr with closeAttempted := true }
  else { fr with closeAttempted := true, isOpen := false,
                 flushedCount := fr.rows.length }

/-- The close loop of shutdown (src lines 156-160): one close attempt per
ctx in bars_map.values(), each inside its own try/except. -/
def closeAll (entries : List (Nat × String)) (files : List (String × FileRes)) :
    List (String × FileRes) :=
  entries.foldl (fun fs e =>
    match alookup fs e.2 with
    | some fr => aupdate fs e.2 (closeFile fr)
    | none => fs) files

/-- shutdown (src lines 151-170): close every file referenced by bars_map
with errors suppressed, then, only if ib is not None, attempt disconnect
with errors suppressed (dfail says whether disconnect raises), then
sys.exit(0).  The returned Nat is the process exit code. -/
def shutdown (dfail : Bool) (s : AppState) : AppState × Nat :=
  let s1 : AppState := { s with files := closeAll s.barsMap s.files }
  let s2 : AppState :=
    if s1.ibSome then
      { s1 with disconnectAttempted := true,
                connected := dfail && s1.connected }
    else s1
  (s2, 0)

/-- connect_to_ib (src lines 62-72): ib = IB() succeeds first (so ib is no
longer None even when the connect call then fails), then ib.connect either
succeeds or raises inside the try; returns whether connection succeeded. -/
def connect_to_ib (fails : Bool) (s : AppState) : AppState × Bool :=
  let s1 : AppState := { s with ibSome := true }
  if fails then (s1, false) else ({ s1 with connected := true }, true)

/-- Failure oracles for one whole run of main. -/
structure MainOracle where
  connectFails : Bool
  mkdirFails : Bool
  sub : SetupOracle
  disconnectFails : Bool

/-- A bar event delivered by the event loop: handle, current bar sequence
of that subscription, hasNewBar flag. -/
def runEvents (s : AppState) (events : List (Nat × List Bar × Bool)) : AppState :=
  events.foldl (fun st e => on_bar st e.1 e.2.1 e.2.2) s

/-- The state from which setup_streaming runs inside main: connected, with
the output directory created. -/
def readyState : AppState :=
  { initialState with ibSome := true, connected := true, dirCreated := true }

/-- main (src lines 173-214): sys.exit(1) when connect fails (before any
output-directory or file side effect), sys.exit(1) when the output
directory cannot be created, setup_streaming, sys.exit(1) when bars_map is
empty, then the event loop runs until a signal and every loop exit path
calls shutdown.  Returns the final state and the process exit code. -/
def run_main (o : MainOracle) (events : List (Nat × List Bar × Bool)) :
    AppState × Nat :=
  let c := connect_to_ib o.connectFails initialState
  if c.2 = false then (c.1, 1)
  else if o.mkdirFails then (c.1, 1)
  else
    let s2 : AppState := { c.1 with dirCreated := true }
    let s3 := setup_streaming o.sub s2
    if s3.barsMap.isEmpty then (s3, 1)
    else shutdown o.disconnectFails (runEvents s3 events)

/-- Fresh subscription handles paired with symbols, starting at a given
handle: the shape of the bars_map entries a setup run appends. -/
def newEntries (start : Nat) : List String → List (Nat × String)
  | [] => []
  | x :: xs => (start, x) :: newEntries (start + 1) xs

/-- Environment in which every ticker except SPY fails at contract
construction, SPY passes contract construction and file open, and the SPY
subscription request is rejected: the SPY file is opened and leaked. -/
def leakOracle : SetupOracle where
  contractFails := fun x => decide (x ≠ "SPY")
  openFails := fun _ => false
  subscribeFails := fun x => decide (x = "SPY")
  writeFails := fun _ => false
  closeFails := fun _ => false

/-- Environment in which exactly the SPY setup succeeds end to end. -/
def onlySpyOracle : SetupOracle where
  contractFails := fun x => decide (x ≠ "SPY")
  openFails := fun _ => false
  subscribeFails := fun _ => false
  writeFails := fun _ => false
  closeFails := fun _ => false

/-- A concrete bar. -/
def wBar : Bar := { time := 1, open_ := 2, high := 3, low := 4, close := 5, volume := 6 }

/-- A concrete streaming state: one subscription with handle 0 for symbol A,
whose freshly opened file is healthy. -/
def wState : AppState :=
  { initialState with
      barsMap := [(0, "A")],
      files := [(("A"), openCsvFile [] false false)] }

/-- The state setupSymbolBody has reached when the SPY subscription request
raises: the SPY file is already open, nothing else has happened. -/
def sLeak1 : AppState :=
  { initialState with files := [(("SPY"), openCsvFile [] false false)] }

/-- A main run whose gateway connection attempt fails. -/
def oConnFail : MainOracle :=
  { connectFails := true, mkdirFails := false, sub := onlySpyOracle,
    disconnectFails := false }

/-! Basic association-list lemmas. -/

theorem alookup_aupdate_self {α β : Type} [DecidableEq α]
    (l : List (α × β)) (k : α) (v : β) :
    alookup (aupdate l k v) k = some v := by
  induction l with
  | nil => simp [aupdate, alookup]
  | cons p rest ih =>
    obtain ⟨k1, v1⟩ := p
    by_cases h : k1 = k
    · simp [aupdate, h, alookup]
    · simp [aupdate, h, alookup, ih, Ne.symm h]

theorem alookup_aupdate_ne {α β : Type} [DecidableEq α]
    (l : List (α × β)) (k k0 : α) (v : β) (h : k0 ≠ k) :
    alookup (aupdate l k v) k0 = alookup l k0 := by
  induction l with
  | nil => simp [aupdate, alookup, h]
  | cons p rest ih =>
    obtain ⟨k1, v1⟩ := p
    by_cases h1 : k1 = k
    · subst h1
      simp [aupdate, alookup, h]
    · simp [aupdate, h1, alookup, ih]

theorem aupdate_map_fst_not_mem {α β : Type} [DecidableEq α]
    (l : List (α × β)) (k : α) (v : β) (h : k ∉ l.map Prod.fst) :
    (aupdate l k v).map Prod.fst = l.map Prod.fst ++ [k] := by
  induction l with
  | nil => simp [aupdate]
  | cons p rest ih =>
    obtain ⟨k1, v1⟩ := p
    simp only [List.map_cons, List.mem_cons] at h
    push_neg at h
    have h1 : k1 ≠ k := fun he => h.1 (he.symm)
    simp [aupdate, h1, ih h.2]

/-! Lemmas about on_bar. -/

theorem on_bar_body_ok_shape (s : AppState) (handle : Nat) (bars : List Bar)
    (s1 : AppState) (h : on_bar_body s handle bars = Except.ok s1) :
    ∃ sym fr b, alookup s.barsMap handle = some sym ∧ bars.getLast? = some b ∧
      alookup s.files sym = some fr ∧ fr.isOpen = true ∧ fr.writeFails = false ∧
      s1 = { s with files := aupdate s.files sym (writtenFile fr b) } := by
  cases hm : alookup s.barsMap handle with
  | none => simp [on_bar_body, hm] at h
  | some sym =>
    cases hl : bars.getLast? with
    | none => simp [on_bar_body, hm, hl] at h
    | some b =>
      cases hf : alookup s.files sym with
      | none => simp [on_bar_body, hm, hl, hf] at h
      | some fr =>
        by_cases ho : (fr.isOpen && !fr.writeFails) = true
        · simp only [on_bar_body, hm, hl, hf, ho, if_true] at h
          obtain ⟨ho1, ho2⟩ := Bool.and_eq_true_iff.mp ho
          refine ⟨sym, fr, b, rfl, rfl, hf, ho1, ?_, ?_⟩
          · cases hw : fr.writeFails
            · rfl
            · rw [hw] at ho2
              simp at ho2
          · cases h
            rfl
        · simp [on_bar_body, hm, hl, hf, ho] at h

theorem on_bar_caught (s : AppState) (handle : Nat) (bars : List Bar)
    (flag : Bool) (e : PyErr) (h : on_bar_body s handle bars = Except.error e) :
    on_bar s handle bars flag = s := by
  cases flag with
  | false => rfl
  | true =>
    unfold on_bar
    rw [h]
    simp

theorem on_bar_barsMap (s : AppState) (handle : Nat) (bars : List Bar)
    (flag : Bool) : (on_bar s handle bars flag).barsMap = s.barsMap := by
  cases flag with
  | false => rfl
  | true =>
    unfold on_bar
    cases hb : on_bar_body s handle bars with
    | error e => rfl
    | ok s1 =>
      obtain ⟨sym, fr, b, hm, hl, hf, ho, hw, rfl⟩ :=
        on_bar_body_ok_shape s handle bars s1 hb
      rfl

theorem on_bar_files_frame (s : AppState) (handle : Nat) (bars : List Bar)
    (flag : Bool) (sym : String) (h : alookup s.barsMap handle ≠ some sym) :
    alookup (on_bar s handle bars flag).files sym = alookup s.files sym := by
  cases flag with
  | false => rfl
  | true =>
    unfold on_bar
    cases hb : on_bar_body s handle bars with
    | error e => rfl
    | ok s1 =>
      obtain ⟨sym0, fr, b, hm, hl, hf, ho, hw, rfl⟩ :=
        on_bar_body_ok_shape s handle bars s1 hb
      have hne : sym ≠ sym0 := fun he => h (he ▸ hm)
      exact alookup_aupdate_ne s.files sym0 sym _ hne

theorem on_bar_write (s : AppState) (handle : Nat) (sym : String) (fr : FileRes)
    (bars : List Bar) (b : Bar)
    (hmap : alookup s.barsMap handle = some sym)
    (hfile : alookup s.files sym = some fr)
    (hopen : fr.isOpen = true) (hwf : fr.writeFails = false)
    (hlast : bars.getLast? = some b) :
    on_bar s handle bars true =
      { s with files := aupdate s.files sym (writtenFile fr b) } := by
  unfold on_bar on_bar_body
  simp [hmap, hlast, hfile, hopen, hwf]

theorem filterMap_getLast_length (invs : List (List Bar))
    (hne : ∀ bs ∈ invs, bs ≠ []) :
    (invs.filterMap List.getLast?).length = invs.length := by
  induction invs with
  | nil => rfl
  | cons bs rest ih =>
    have hbs : bs ≠ [] := hne bs (by simp)
    obtain ⟨b, hb⟩ := Option.isSome_iff_exists.mp
      (List.getLast?_isSome.mpr hbs)
    simp only [List.filterMap_cons, hb, List.length_cons]
    rw [ih (fun x hx => hne x (by simp [hx]))]

theorem runOnBars_spec (handle : Nat) (sym : String) (invs : List (List Bar)) :
    ∀ (s : AppState) (fr : FileRes),
      alookup s.barsMap handle = some sym →
      alookup s.files sym = some fr →
      fr.isOpen = true → fr.writeFails = false →
      (∀ bs ∈ invs, bs ≠ []) →
      ∃ fr1,
        alookup (runOnBars s handle invs).files sym = some fr1 ∧
        fr1.rows = fr.rows ++ (invs.filterMap List.getLast?).map rowOfBar ∧
        fr1.isOpen = true ∧ fr1.writeFails = false ∧
        (invs = [] → fr1 = fr) ∧
        (invs ≠ [] → fr1.flushedCount = fr1.rows.length) ∧
        (runOnBars s handle invs).barsMap = s.barsMap := by
  induction invs with
  | nil =>
    intro s fr hm hf ho hw hne
    refine ⟨fr, ?_, by simp, ho, hw, fun _ => rfl, fun h => absurd rfl h, rfl⟩
    simpa [runOnBars] using hf
  | cons bs rest ih =>
    intro s fr hm hf ho hw hne
    have hbs : bs ≠ [] := hne bs (by simp)
    obtain ⟨b, hb⟩ := Option.isSome_iff_exists.mp
      (List.getLast?_isSome.mpr hbs)
    have hstep := on_bar_write s handle sym fr bs b hm hf ho hw hb
    have hrun : runOnBars s handle (bs :: rest) =
        runOnBars (on_bar s handle bs true) handle rest := rfl
    have hm1 : alookup (on_bar s handle bs true).barsMap handle = some sym := by
      rw [on_bar_barsMap]
      exact hm
    have hf1 : alookup (on_bar s handle bs true).files sym =
        some (writtenFile fr b) := by
      rw [hstep]
      exact alookup_aupdate_self s.files sym (writtenFile fr b)
    obtain ⟨fr1, hfr1, hrows, ho1, hw1, hnil, hflush, hbm⟩ :=
      ih (on_bar s handle bs true) (writtenFile fr b) hm1 hf1
        (by simp [writtenFile, ho]) (by simp [writtenFile, hw])
        (fun x hx => hne x (by simp [hx]))
    refine ⟨fr1, by rw [hrun]; exact hfr1, ?_, ho1, hw1,
      fun hc => absurd hc (by simp), fun _ => ?_, ?_⟩
    · rw [hrows]
      simp [writtenFile, List.filterMap_cons, hb]
    · cases hr : rest with
      | nil =>
        have := hnil (by rw [hr])
        subst this
        simp [writtenFile]
      | cons y ys =>
        exact hflush (by rw [hr]; simp)
    · rw [hrun, hbm, on_bar_barsMap]

/-! Lemmas about shutdown. -/

theorem closeFile_closeAttempted (fr : FileRes) :
    (closeFile fr).closeAttempted = true := by
  unfold closeFile
  split <;> rfl

theorem closeAll_cons (e : Nat × String) (rest : List (Nat × String))
    (fs : List (String × FileRes)) :
    closeAll (e :: rest) fs = closeAll rest
      (match alookup fs e.2 with
       | some fr => aupdate fs e.2 (closeFile fr)
       | none => fs) := rfl

theorem closeAll_lookup_not_mem (entries : List (Nat × String)) :
    ∀ (fs : List (String × FileRes)) (sym : String),
      sym ∉ entries.map Prod.snd →
      alookup (closeAll entries fs) sym = alookup fs sym := by
  induction entries with
  | nil => intro fs sym h; rfl
  | cons e rest ih =>
    intro fs sym h
    simp only [List.map_cons, List.mem_cons] at h
    push_neg at h
    rw [closeAll_cons]
    cases he : alookup fs e.2 with
    | none =>
      simp only [he]
      exact ih fs sym h.2
    | some fr =>
      simp only [he]
      rw [ih _ sym h.2]
      exact alookup_aupdate_ne fs e.2 sym (closeFile fr) h.1

theorem closeAll_attempted (entries : List (Nat × String)) :
    ∀ (fs : List (String × FileRes)) (sym : String) (fr : FileRes),
      sym ∈ entries.map Prod.snd →
      alookup fs sym = some fr →
      ∃ fr1, alookup (closeAll entries fs) sym = some fr1 ∧
        fr1.closeAttempted = true := by
  induction entries with
  | nil =>
    intro fs sym fr h hfr
    simp at h
  | cons e rest ih =>
    intro fs sym fr hmem hfr
    rw [closeAll_cons]
    by_cases hsym : sym = e.2
    · subst hsym
      simp only [hfr]
      by_cases hrest : e.2 ∈ rest.map Prod.snd
      · exact ih (aupdate fs e.2 (closeFile fr)) e.2 (closeFile fr) hrest
          (alookup_aupdate_self fs e.2 (closeFile fr))
      · refine ⟨closeFile fr, ?_, closeFile_closeAttempted fr⟩
        rw [closeAll_lookup_not_mem rest _ e.2 hrest]
        exact alookup_aupdate_self fs e.2 (closeFile fr)
    · have hmem1 : sym ∈ rest.map Prod.snd := by
        simp only [List.map_cons, List.mem_cons] at hmem
        tauto
      cases he : alookup fs e.2 with
      | none =>
        simp only [he]
        exact ih fs sym fr hmem1 hfr
      | some fr2 =>
        simp only [he]
        refine ih _ sym fr hmem1 ?_
        rw [alookup_aupdate_ne fs e.2 sym (closeFile fr2) hsym]
        exact hfr

theorem shutdown_files (dfail : Bool) (s : AppState) :
    ((shutdown dfail s).1).files = closeAll s.barsMap s.files := by
  unfold shutdown
  by_cases h : s.ibSome = true <;> simp [h]

theorem shutdown_barsMap (dfail : Bool) (s : AppState) :
    ((shutdown dfail s).1).barsMap = s.barsMap := by
  unfold shutdown
  by_cases h : s.ibSome = true <;> simp [h]

theorem shutdown_code (dfail : Bool) (s : AppState) :
    (shutdown dfail s).2 = 0 := rfl

/-! Lemmas about setup_streaming. -/

theorem setupSymbol_barsMap_next (o : SetupOracle) (s : AppState) (x : String) :
    (setupSymbol o s x).barsMap =
      (if subscribeOK o x then s.barsMap ++ [(s.nextHandle, x)] else s.barsMap) ∧
    (setupSymbol o s x).nextHandle =
      (if subscribeOK o x then s.nextHandle + 1 else s.nextHandle) := by
  unfold setupSymbol setupSymbolBody subscribeOK
  cases h1 : o.contractFails x with
  | true => simp
  | false =>
    cases h2 : o.openFails x with
    | true => simp
    | false =>
      cases h3 : o.subscribeFails x with
      | true => simp
      | false => simp

theorem setupSymbol_files (o : SetupOracle) (s : AppState) (x : String) :
    (setupSymbol o s x).files =
      (if openOK o x then
        aupdate s.files x
          (openCsvFile (existingRows s x) (o.writeFails x) (o.closeFails x))
      else s.files) := by
  unfold setupSymbol setupSymbolBody openOK
  cases h1 : o.contractFails x with
  | true => simp
  | false =>
    cases h2 : o.openFails x with
    | true => simp
    | false =>
      cases h3 : o.subscribeFails x with
      | true => simp
      | false => simp

theorem newEntries_map_snd (start : Nat) (l : List String) :
    (newEntries start l).map Prod.snd = l := by
  induction l generalizing start with
  | nil => rfl
  | cons x xs ih => simp [newEntries, ih]

theorem newEntries_fst_ge (l : List String) :
    ∀ (start : Nat) (m : Nat), m ∈ (newEntries start l).map Prod.fst → start ≤ m := by
  induction l with
  | nil => intro start m h; simp [newEntries] at h
  | cons x xs ih =>
    intro start m h
    simp only [newEntries, List.map_cons, List.mem_cons] at h
    cases h with
    | inl h => omega
    | inr h =>
      have := ih (start + 1) m h
      omega

theorem newEntries_fst_nodup (l : List String) :
    ∀ start : Nat, ((newEntries start l).map Prod.fst).Nodup := by
  induction l with
  | nil => intro start; simp [newEntries]
  | cons x xs ih =>
    intro start
    simp only [newEntries, List.map_cons, List.nodup_cons]
    refine ⟨fun hmem => ?_, ih (start + 1)⟩
    have := newEntries_fst_ge xs (start + 1) start hmem
    omega

theorem setupList_barsMap_next (o : SetupOracle) (l : List String) :
    ∀ s : AppState,
      (setupList o s l).barsMap =
        s.barsMap ++ newEntries s.nextHandle (l.filter (subscribeOK o)) ∧
      (setupList o s l).nextHandle =
        s.nextHandle + (l.filter (subscribeOK o)).length := by
  induction l with
  | nil => intro s; simp [setupList, newEntries]
  | cons x xs ih =>
    intro s
    have hfold : setupList o s (x :: xs) = setupList o (setupSymbol o s x) xs := rfl
    obtain ⟨hb, hn⟩ := setupSymbol_barsMap_next o s x
    obtain ⟨ihb, ihn⟩ := ih (setupSymbol o s x)
    rw [hfold]
    cases hx : subscribeOK o x with
    | true =>
      rw [hx] at hb hn
      simp at hb hn
      constructor
      · rw [ihb, hb, hn, List.filter_cons_of_pos hx]
        simp [newEntries, List.append_assoc]
      · rw [ihn, hn, List.filter_cons_of_pos hx]
        simp
        omega
    | false =>
      rw [hx] at hb hn
      simp at hb hn
      constructor
      · rw [ihb, hb, hn, List.filter_cons_of_neg (by simp [hx])]
      · rw [ihn, hn, List.filter_cons_of_neg (by simp [hx])]

theorem setupList_files_keys (o : SetupOracle) (l : List String) :
    ∀ s : AppState, l.Nodup → (∀ x ∈ l, x ∉ s.files.map Prod.fst) →
      (setupList o s l).files.map Prod.fst =
        s.files.map Prod.fst ++ l.filter (openOK o) := by
  induction l with
  | nil => intro s _ _; simp [setupList]
  | cons x xs ih =>
    intro s hnd hdisj
    have hfold : setupList o s (x :: xs) = setupList o (setupSymbol o s x) xs := rfl
    rw [hfold]
    have hndx : x ∉ xs := (List.nodup_cons.mp hnd).1
    have hndxs : xs.Nodup := (List.nodup_cons.mp hnd).2
    have hkx : x ∉ s.files.map Prod.fst := hdisj x (by simp)
    cases hx : openOK o x with
    | true =>
      have hkeys1 : (setupSymbol o s x).files.map Prod.fst =
          s.files.map Prod.fst ++ [x] := by
        rw [setupSymbol_files o s x, hx]
        simp only [if_pos]
        exact aupdate_map_fst_not_mem s.files x _ hkx
      have hdisj1 : ∀ y ∈ xs, y ∉ (setupSymbol o s x).files.map Prod.fst := by
        intro y hy
        rw [hkeys1]
        simp only [List.mem_append, List.mem_singleton]
        push_neg
        exact ⟨hdisj y (by simp [hy]), fun he => hndx (he ▸ hy)⟩
      rw [ih (setupSymbol o s x) hndxs hdisj1, hkeys1,
        List.filter_cons_of_pos hx]
      simp [List.append_assoc]
    | false =>
      have hkeys1 : (setupSymbol o s x).files.map Prod.fst =
          s.files.map Prod.fst := by
        rw [setupSymbol_files o s x, hx]
        simp
      have hdisj1 : ∀ y ∈ xs, y ∉ (setupSymbol o s x).files.map Prod.fst := by
        intro y hy
        rw [hkeys1]
        exact hdisj y (by simp [hy])
      rw [ih (setupSymbol o s x) hndxs hdisj1, hkeys1,
        List.filter_cons_of_neg (by simp [hx])]

theorem TICKERS_nodup : TICKERS.Nodup := by decide

theorem subscribeOK_implies_openOK (o : SetupOracle) (x : String)
    (h : subscribeOK o x = true) : openOK o x = true := by
  unfold subscribeOK at h
  unfold openOK
  exact (Bool.and_eq_true_iff.mp h).1

theorem setupSymbolBody_error_shape (o : SetupOracle) (s : AppState)
    (x : String) (e : PyErr) (s1 : AppState)
    (h : setupSymbolBody o s x = Except.error (e, s1)) :
    s1.barsMap = s.barsMap ∧ s1.nextHandle = s.nextHandle := by
  unfold setupSymbolBody at h
  cases h1 : o.contractFails x with
  | true =>
    rw [h1] at h
    simp at h
    obtain ⟨-, rfl⟩ := h
    exact ⟨rfl, rfl⟩
  | false =>
    rw [h1] at h
    simp only [Bool.false_eq_true, if_false] at h
    cases h2 : o.openFails x with
    | true =>
      rw [h2] at h
      simp at h
      obtain ⟨-, rfl⟩ := h
      exact ⟨rfl, rfl⟩
    | false =>
      rw [h2] at h
      simp only [Bool.false_eq_true, if_false] at h
      cases h3 : o.subscribeFails x with
      | true =>
        rw [h3] at h
        simp at h
        obtain ⟨-, rfl⟩ := h
        exact ⟨rfl, rfl⟩
      | false =>
        rw [h3] at h
        simp at h

theorem headerCount_map_rowOfBar (ds : List Bar) :
    headerCount (ds.map rowOfBar) = 0 := by
  induction ds with
  | nil => rfl
  | cons d rest ih =>
    simp only [List.map_cons, headerCount, List.filter_cons] at ih ⊢
    simp only [show isHeader (rowOfBar d) = false from rfl, Bool.false_eq_true,
      if_false]
    exact ih

/-! The claims. -/

/-- C1: for a sequence of on_bar invocations with hasNewBar true on a
subscription handle mapped to a symbol whose file is open and healthy, each
invocation with a non-empty bar sequence appends exactly one record holding
the six fields of the most recent bar (the last element of the bar
sequence), the records appear in arrival order, and after each append the
file is flushed (every written row is durable). -/
theorem on_bar_appends_in_order (s : AppState) (handle : Nat) (sym : String)
    (fr : FileRes) (invs : List (List Bar))
    (hmap : alookup s.barsMap handle = some sym)
    (hfile : alookup s.files sym = some fr)
    (hopen : fr.isOpen = true) (hwf : fr.writeFails = false)
    (hne : ∀ bs ∈ invs, bs ≠ []) (hinvs : invs ≠ []) :
    ∃ fr1, alookup (runOnBars s handle invs).files sym = some fr1 ∧
      fr1.rows = fr.rows ++ (invs.filterMap List.getLast?).map rowOfBar ∧
      (invs.filterMap List.getLast?).length = invs.length ∧
      fr1.flushedCount = fr1.rows.length := by
  obtain ⟨fr1, hfr1, hrows, ho1, hw1, hnil, hflush, hbm⟩ :=
    runOnBars_spec handle sym invs s fr hmap hfile hopen hwf hne
  exact ⟨fr1, hfr1, hrows, filterMap_getLast_length invs hne, hflush hinvs⟩

/-- Witness for C1: one invocation on a concrete state appends the one
record of the last bar and leaves the file fully flushed. -/
theorem on_bar_appends_in_order_witness :
    ∃ fr1, alookup (runOnBars wState 0 [[wBar]]).files ("A") = some fr1 ∧
      fr1.rows = (openCsvFile [] false false).rows ++
        (([[wBar]] : List (List Bar)).filterMap List.getLast?).map rowOfBar ∧
      (([[wBar]] : List (List Bar)).filterMap List.getLast?).length =
        ([[wBar]] : List (List Bar)).length ∧
      fr1.flushedCount = fr1.rows.length :=
  on_bar_appends_in_order wState 0 ("A") (openCsvFile [] false false) [[wBar]]
    (by decide) (by decide) (by decide) (by decide) (by decide) (by decide)

/-- C2: an on_bar invocation with hasNewBar false returns immediately and
is a complete no-op: the whole program state, in particular every output
resource and the subscription-to-resource mapping, is unchanged. -/
theorem on_bar_no_new_bar (s : AppState) (handle : Nat) (bars : List Bar) :
    on_bar s handle bars false = s := rfl

/-- C3: every error raised inside the try block of on_bar (missing handle,
empty bar sequence, failing write or flush) is caught, so on_bar always
returns normally with the state unchanged on failure; moreover for any
invocation the subscription-to-resource mapping is unchanged and the output
resource of every symbol other than the one owned by the handle is
untouched, so streaming for other symbols is unaffected. -/
theorem on_bar_error_contained (s : AppState) (handle : Nat) (bars : List Bar)
    (flag : Bool) :
    (∀ e : PyErr, on_bar_body s handle bars = Except.error e →
      on_bar s handle bars flag = s) ∧
    (on_bar s handle bars flag).barsMap = s.barsMap ∧
    (∀ sym : String, alookup s.barsMap handle ≠ some sym →
      alookup (on_bar s handle bars flag).files sym = alookup s.files sym) :=
  ⟨fun e he => on_bar_caught s handle bars flag e he,
   on_bar_barsMap s handle bars flag,
   fun sym h => on_bar_files_frame s handle bars flag sym h⟩

/-- Witness for C3: on a concrete state with an unknown handle the body
raises, on_bar returns the state unchanged, and the file of another symbol
is untouched. -/
theorem on_bar_error_contained_witness :
    on_bar initialState 0 [] true = initialState ∧
    alookup (on_bar initialState 0 [] true).files ("B") =
      alookup initialState.files ("B") :=
  ⟨(on_bar_error_contained initialState 0 [] true).1 PyErr.keyError rfl,
   (on_bar_error_contained initialState 0 [] true).2.2 ("B") (by decide)⟩

/-- C4 counterexample: a setup run in which the SPY contract and file open
succeed but the SPY subscription request is rejected leaves an output
resource for SPY while the subscription-to-resource mapping is empty: an
output resource exists for a symbol whose subscription did not succeed,
contradicting the claim. -/
theorem setup_leak_counterexample :
    alookup (setup_streaming leakOracle initialState).files ("SPY") =
      some (openCsvFile [] false false) ∧
    (setup_streaming leakOracle initialState).barsMap = [] := by decide

/-- C4 (amended): after setup from the clean initial state the
subscription-to-resource mapping has pairwise distinct handles and pairwise
distinct symbols and its symbols are exactly the successfully-subscribed
tickers in list order, so it is a bijection onto the successfully-subscribed
symbols; there is exactly one output resource per ticker whose file open
succeeded (each successfully-subscribed symbol among them); but an output
resource may also exist for a symbol whose file was opened and whose
subscription request then failed. -/
theorem setup_streaming_map_bijection (o : SetupOracle) :
    ((setup_streaming o initialState).barsMap.map Prod.fst).Nodup ∧
    (setup_streaming o initialState).barsMap.map Prod.snd =
      TICKERS.filter (subscribeOK o) ∧
    ((setup_streaming o initialState).barsMap.map Prod.snd).Nodup ∧
    (setup_streaming o initialState).files.map Prod.fst =
      TICKERS.filter (openOK o) ∧
    ((setup_streaming o initialState).files.map Prod.fst).Nodup ∧
    (∀ sym, sym ∈ (setup_streaming o initialState).barsMap.map Prod.snd →
      sym ∈ (setup_streaming o initialState).files.map Prod.fst) := by
  have hbm := (setupList_barsMap_next o TICKERS initialState).1
  have hfiles := setupList_files_keys o TICKERS initialState TICKERS_nodup
    (by intro x hx; simp [initialState])
  rw [show initialState.barsMap = [] from rfl,
    show initialState.nextHandle = 0 from rfl, List.nil_append] at hbm
  rw [show (initialState.files.map Prod.fst : List String) = [] from rfl,
    List.nil_append] at hfiles
  simp only [setup_streaming]
  refine ⟨?_, ?_, ?_, ?_, ?_, ?_⟩
  · rw [hbm]
    exact newEntries_fst_nodup _ 0
  · rw [hbm]
    exact newEntries_map_snd 0 _
  · rw [hbm, newEntries_map_snd]
    exact TICKERS_nodup.filter _
  · exact hfiles
  · rw [hfiles]
    exact TICKERS_nodup.filter _
  · intro sym hmem
    rw [hbm, newEntries_map_snd, List.mem_filter] at hmem
    rw [hfiles, List.mem_filter]
    exact ⟨hmem.1, subscribeOK_implies_openOK o sym hmem.2⟩

/-- Witness for C4: in an environment where exactly the SPY setup succeeds,
SPY is a subscribed symbol of the mapping and owns an output resource. -/
theorem setup_streaming_map_bijection_witness :
    ("SPY") ∈ (setup_streaming onlySpyOracle initialState).files.map Prod.fst :=
  (setup_streaming_map_bijection onlySpyOracle).2.2.2.2.2 ("SPY") (by decide)

/-- C5 counterexample: in the reachable state of the leak run the open SPY
resource is not referenced by the mapping, and after shutdown it is still
open with no close attempt made: shutdown does not attempt to close every
open output resource, contradicting the claim. -/
theorem shutdown_missed_close_counterexample :
    alookup ((shutdown false
        (setup_streaming leakOracle initialState)).1).files ("SPY") =
      some (openCsvFile [] false false) ∧
    (openCsvFile [] false false).isOpen = true ∧
    (openCsvFile [] false false).closeAttempted = false := by decide

/-- C5 (amended): for every state, shutdown makes a close attempt on every
output resource referenced by the subscription-to-resource mapping (even
when the close of any other resource raises, since every close error is
suppressed), leaves resources not referenced by the mapping untouched,
attempts to disconnect when a session object exists (errors suppressed),
leaves the mapping unchanged and exits with code 0. -/
theorem shutdown_best_effort (dfail : Bool) (s : AppState) :
    (shutdown dfail s).2 = 0 ∧
    (s.ibSome = true → ((shutdown dfail s).1).disconnectAttempted = true) ∧
    (∀ sym, sym ∈ s.barsMap.map Prod.snd → ∀ fr, alookup s.files sym = some fr →
      ∃ fr1, alookup ((shutdown dfail s).1).files sym = some fr1 ∧
        fr1.closeAttempted = true) ∧
    (∀ sym, sym ∉ s.barsMap.map Prod.snd →
      alookup ((shutdown dfail s).1).files sym = alookup s.files sym) ∧
    ((shutdown dfail s).1).barsMap = s.barsMap := by
  refine ⟨shutdown_code dfail s, ?_, ?_, ?_, shutdown_barsMap dfail s⟩
  · intro h
    unfold shutdown
    simp [h]
  · intro sym hmem fr hfr
    rw [shutdown_files]
    exact closeAll_attempted s.barsMap s.files sym fr hmem hfr
  · intro sym hmem
    rw [shutdown_files]
    exact closeAll_lookup_not_mem s.barsMap s.files sym hmem

/-- Witness for C5: on a concrete state with one mapped resource, shutdown
exits 0 and the mapped resource receives a close attempt. -/
theorem shutdown_best_effort_witness :
    (shutdown false wState).2 = 0 ∧
    ∃ fr1, alookup ((shutdown false wState).1).files ("A") = some fr1 ∧
      fr1.closeAttempted = true :=
  ⟨(shutdown_best_effort false wState).1,
   (shutdown_best_effort false wState).2.2.1 ("A") (by decide)
     (openCsvFile [] false false) (by decide)⟩

theorem run_main_connect_fail (o : MainOracle)
    (events : List (Nat × List Bar × Bool)) (hc : o.connectFails = true) :
    run_main o events = ({ initialState with ibSome := true }, 1) := by
  obtain ⟨cf, mf, sub, df⟩ := o
  have hc2 : cf = true := hc
  subst hc2
  rfl

theorem run_main_mkdir_fail (o : MainOracle)
    (events : List (Nat × List Bar × Bool)) (hc : o.connectFails = false)
    (hm : o.mkdirFails = true) :
    run_main o events =
      ({ initialState with ibSome := true, connected := true }, 1) := by
  obtain ⟨cf, mf, sub, df⟩ := o
  have hc2 : cf = false := hc
  have hm2 : mf = true := hm
  subst hc2
  subst hm2
  rfl

theorem run_main_success (o : MainOracle)
    (events : List (Nat × List Bar × Bool)) (hc : o.connectFails = false)
    (hm : o.mkdirFails = false) :
    run_main o events =
      (if (setup_streaming o.sub readyState).barsMap.isEmpty
       then (setup_streaming o.sub readyState, 1)
       else shutdown o.disconnectFails
         (runEvents (setup_streaming o.sub readyState) events)) := by
  obtain ⟨cf, mf, sub, df⟩ := o
  have hc2 : cf = false := hc
  have hm2 : mf = false := hm
  subst hc2
  subst hm2
  rfl

/-- C6: the process exit code of main is 1 exactly when the connection
attempt fails, the output directory creation fails, or zero subscriptions
succeed (the mapping is empty after setup), and 0 on the graceful shutdown
path; moreover a failed connection attempt leaves no output file and no
output directory side effect. -/
theorem main_exit_codes (o : MainOracle) (events : List (Nat × List Bar × Bool)) :
    ((run_main o events).2 =
      if o.connectFails || o.mkdirFails ||
          (setup_streaming o.sub readyState).barsMap.isEmpty
      then 1 else 0) ∧
    (o.connectFails = true →
      (run_main o events).1.files = [] ∧
      (run_main o events).1.dirCreated = false) := by
  cases hc : o.connectFails with
  | true =>
    rw [run_main_connect_fail o events hc]
    exact ⟨by simp, fun _ => ⟨rfl, rfl⟩⟩
  | false =>
    refine ⟨?_, fun hcc => absurd hcc (by simp)⟩
    cases hm : o.mkdirFails with
    | true =>
      rw [run_main_mkdir_fail o events hc hm]
      simp
    | false =>
      rw [run_main_success o events hc hm]
      by_cases he : (setup_streaming o.sub readyState).barsMap.isEmpty = true
      · simp [he]
      · simp only [Bool.not_eq_true] at he
        simp [he, shutdown_code]

/-- Witness for C6: a run whose connection attempt fails exits without any
output file or output directory side effect. -/
theorem main_exit_codes_witness :
    (run_main oConnFail []).1.files = [] ∧
    (run_main oConnFail []).1.dirCreated = false :=
  (main_exit_codes oConnFail []).2 rfl

/-- C7: opening the output file of a symbol writes the header row exactly
when the existing content is empty (newly created or empty file), leaves
non-empty existing content exactly as it was (never truncated, no second
header), and across a run that appends data rows followed by a re-open the
header appears exactly once. -/
theorem openCsvFile_header_once (existing : List Row) (wf cf : Bool)
    (ds : List Bar) :
    (existing = [] → (openCsvFile existing wf cf).rows = [Row.header]) ∧
    (existing ≠ [] → (openCsvFile existing wf cf).rows = existing) ∧
    headerCount ((openCsvFile ((openCsvFile [] wf cf).rows ++ ds.map rowOfBar)
      wf cf).rows) = 1 := by
  refine ⟨fun h => ?_, fun h => ?_, ?_⟩
  · simp [openCsvFile, h]
  · simp [openCsvFile, h]
  · have h1 : (openCsvFile [] wf cf).rows = [Row.header] := by
      simp [openCsvFile]
    rw [h1]
    have h2 : (Row.header :: ds.map rowOfBar).isEmpty = false := rfl
    simp only [List.singleton_append, openCsvFile, h2, Bool.false_eq_true,
      if_false]
    have h3 := headerCount_map_rowOfBar ds
    simp only [headerCount, List.filter_cons] at h3 ⊢
    simp only [show isHeader Row.header = true from rfl, if_true,
      List.length_cons, h3]

/-- Witness for C7: opening a new empty file writes exactly the header. -/
theorem openCsvFile_header_once_witness :
    (openCsvFile [] false false).rows = [Row.header] :=
  (openCsvFile_header_once [] false false []).1 rfl

/-- C8: when the setup of one symbol raises (bad contract, failing file
open, or rejected subscription request), the error is caught by the
per-symbol except clause, no mapping entry is added for that symbol and no
subscription handle is consumed, and setup proceeds with the remaining
symbols of the list in order; the failure never escapes the loop, so a
per-symbol failure alone never terminates the process. -/
theorem setup_symbol_failure_skips (o : SetupOracle) (s : AppState)
    (x : String) (rest : List String) (e : PyErr) (s1 : AppState)
    (h : setupSymbolBody o s x = Except.error (e, s1)) :
    setupSymbol o s x = s1 ∧
    s1.barsMap = s.barsMap ∧
    s1.nextHandle = s.nextHandle ∧
    setupList o s (x :: rest) = setupList o s1 rest := by
  have h1 : setupSymbol o s x = s1 := by
    unfold setupSymbol
    rw [h]
  obtain ⟨hb, hn⟩ := setupSymbolBody_error_shape o s x e s1 h
  refine ⟨h1, hb, hn, ?_⟩
  rw [show setupList o s (x :: rest) = setupList o (setupSymbol o s x) rest
    from rfl, h1]

/-- Witness for C8: the rejected SPY subscription is caught, the reached
state keeps the opened file but adds no mapping entry, and the loop
continues from it. -/
theorem setup_symbol_failure_skips_witness :
    setupSymbol leakOracle initialState ("SPY") = sLeak1 ∧
    sLeak1.barsMap = initialState.barsMap ∧
    sLeak1.nextHandle = initialState.nextHandle ∧
    setupList leakOracle initialState (("SPY") :: []) =
      setupList leakOracle sLeak1 [] :=
  setup_symbol_failure_skips leakOracle initialState ("SPY") []
    PyErr.subscribeError sLeak1 rfl

/-- C9: invoking shutdown when no session object was ever created (ib still
None) is safe: the handler is total, makes no disconnect attempt, still
performs the close pass over the mapped resources and exits with code 0. -/
theorem shutdown_never_connected (dfail : Bool) (s : AppState)
    (h : s.ibSome = false) :
    (shutdown dfail s).2 = 0 ∧
    ((shutdown dfail s).1).disconnectAttempted = s.disconnectAttempted ∧
    ((shutdown dfail s).1).files = closeAll s.barsMap s.files ∧
    ((shutdown dfail s).1).barsMap = s.barsMap := by
  refine ⟨shutdown_code dfail s, ?_, shutdown_files dfail s,
    shutdown_barsMap dfail s⟩
  unfold shutdown
  simp [h]

/-- Witness for C9: shutdown on the initial state (ib is None). -/
theorem shutdown_never_connected_witness :
    (shutdown false initialState).2 = 0 ∧
    ((shutdown false initialState).1).disconnectAttempted =
      initialState.disconnectAttempted ∧
    ((shutdown false initialState).1).files =
      closeAll initialState.barsMap initialState.files ∧
    ((shutdown false initialState).1).barsMap = initialState.barsMap :=
  shutdown_never_connected false initialState rfl

/-- C10: neither an on_bar invocation (with either flag value) nor a
shutdown invocation adds or removes entries of the subscription-to-resource
mapping: the mapping is identical before and after; only setup populates
it. -/
theorem handlers_preserve_subscription_map (s : AppState) (handle : Nat)
    (bars : List Bar) (flag : Bool) (dfail : Bool) :
    (on_bar s handle bars flag).barsMap = s.barsMap ∧
    ((shutdown dfail s).1).barsMap = s.barsMap :=
  ⟨on_bar_barsMap s handle bars flag, shutdown_barsMap dfail s⟩

end IBStream
